import Mathlib

/-!
Formal model of the deployment lifecycle orchestrator of the MCP DevOps
server: the `DeployAgent` (Kubernetes apply / readiness wait / address
resolution / rollback) and the `MonitorAgent` (monitoring campaign,
health aggregation, liveness probe).

Cluster-API calls are modelled either parametrically (each call's outcome
is an `Except` value supplied as an argument, mirroring the promise that
resolves or rejects) or against an explicit `Cluster` state whose
create/replace operations exhibit the conflict (HTTP 409) semantics the
code relies on.  Time is abstract: the readiness-wait loop advances a
millisecond counter by the poll interval on every iteration, exactly as
the `sleep(5000)` calls do between `Date.now()` reads.
-/

/-- `deployment.status?.readyReplicas || 0` and `deployment.spec?.replicas || 0`:
the two counters read by each readiness poll; `none` models an absent field. -/
structure DeploymentReadiness where
  readyReplicas : Option Nat
  replicas : Option Nat
deriving DecidableEq

/-- The fixed 5-second pause between readiness polls (`sleep(5000)`). -/
def pollInterval : Nat := 5000

/-- Default readiness deadline (`timeoutMs = 300000`). -/
def defaultTimeoutMs : Nat := 300000

/-- The convergence test of a single poll:
`readyReplicas === replicas && replicas > 0` after `|| 0` coalescing. -/
def deployConverged (d : DeploymentReadiness) : Bool :=
  (d.readyReplicas.getD 0 == d.replicas.getD 0) && decide (0 < d.replicas.getD 0)

/-- Whether one poll result observes convergence: a read error never does
(it is caught, logged and polling continues). -/
def pollOnce (r : Except String DeploymentReadiness) : Bool :=
  match r with
  | .ok d => deployConverged d
  | .error _ => false

/-- The `while (Date.now() - startTime < timeoutMs)` loop of
`waitForDeployment`.  `polls i` is the outcome of the `i`-th
`readNamespacedDeployment` call; `elapsed` is `Date.now() - startTime`,
advanced by `pollInterval` per iteration: the non-converged branch and the
catch branch both `sleep(5000)` and continue, differing only in logging,
which `pollOnce` collapses.  Returns `.ok ()` when a poll converges and
the timeout error thrown after the deadline otherwise. -/
def waitGo (appName : String) (polls : Nat → Except String DeploymentReadiness)
    (timeoutMs i elapsed : Nat) : Except String Unit :=
  if _h : elapsed < timeoutMs then
    if pollOnce (polls i) then .ok ()
    else waitGo appName polls timeoutMs (i + 1) (elapsed + pollInterval)
  else
    .error ("Deployment " ++ appName ++ " did not become ready within " ++
      toString timeoutMs ++ "ms")
termination_by timeoutMs - elapsed
decreasing_by
  all_goals simp only [pollInterval]
  all_goals omega

/-- `DeployAgent.waitForDeployment(appName, namespace, timeoutMs)`. -/
def waitForDeployment (appName : String)
    (polls : Nat → Except String DeploymentReadiness) (timeoutMs : Nat) :
    Except String Unit :=
  waitGo appName polls timeoutMs 0 0

structure HealthResult where
  status : String
  status_code : Option Nat
  message : String
deriving DecidableEq

/-- `MonitorAgent.performHealthCheck(appName, namespace)`.  `serviceUrl` is
the (possibly null) result of the internal `getServiceUrl`; `response` is
the axios GET outcome — `.ok code` when any HTTP response arrived
(`validateStatus: () => true` suppresses throwing on non-2xx) and
`.error e` when the request itself threw. -/
def performHealthCheck (serviceUrl : Option String) (response : Except String Nat) :
    HealthResult :=
  match serviceUrl with
  | none => ⟨"unknown", none, "Service URL not available"⟩
  | some _ =>
    match response with
    | .ok code =>
      ⟨if code == 200 then "healthy" else "unhealthy", some code,
        if code == 200 then "Health check passed" else "Health check failed"⟩
    | .error e => ⟨"unhealthy", none, "Health check failed: " ++ e⟩

/-- C10: with a resolvable service URL, a sample is classified `healthy`
exactly when the HTTP status code is 200 (the code is preserved in
`status_code`); any other code — 201 and 204 included — yields `unhealthy`;
and a thrown request error yields an `unhealthy` result rather than an
exception (the function is total). -/
structure ApiError where
  statusCode : Option Nat
  message : String
deriving DecidableEq

/-- A named cluster object: its metadata name, its metadata labels (an
association list with at most one value per key, as in a JS object) and an
opaque spec payload. -/
structure K8sObject where
  name : String
  labels : List (String × String)
  payload : Nat
deriving DecidableEq

/-- Cluster state: one store per resource kind handled by
`deployToKubernetes`, plus the log of revision-rollback requests issued by
`createNamespacedDeploymentRollback` (recorded so that "no mutation" is an
expressible property). -/
structure Cluster where
  deployments : List K8sObject
  services : List K8sObject
  ingresses : List K8sObject
  rollbackRequests : List String
deriving DecidableEq

/-- Look an object up by metadata name. -/
def findObj (objs : List K8sObject) (n : String) : Option K8sObject :=
  objs.find? (fun o => o.name == n)

/-- The conflict condition: HTTP 409 `AlreadyExists`. -/
def conflictError : ApiError := ⟨some 409, "AlreadyExists"⟩

/-- `create*` on a store: fails with 409 iff an object of that name already
exists, otherwise appends the object. -/
def createIn (objs : List K8sObject) (o : K8sObject) :
    Except ApiError (List K8sObject) :=
  if (findObj objs o.name).isSome then .error conflictError
  else .ok (objs ++ [o])

/-- `replace*` on a store: full in-place overwrite of the object of that
name; 404 when absent. -/
def replaceIn (objs : List K8sObject) (o : K8sObject) :
    Except ApiError (List K8sObject) :=
  if (findObj objs o.name).isSome then
    .ok (objs.map (fun x => if x.name == o.name then o else x))
  else .error ⟨some 404, "NotFound"⟩

/-- Set one metadata label, overwriting any previous value of that key
(JS object-spread semantics). -/
def setLabel (ls : List (String × String)) (k v : String) :
    List (String × String) :=
  (ls.filter (fun p => p.1 != k)) ++ [(k, v)]

/-- The label stamping `deployToKubernetes` performs on every descriptor
before submitting it: `deployment-id` and `managed-by`. -/
def stampLabels (o : K8sObject) (deploymentId : String) : K8sObject :=
  ⟨o.name, setLabel (setLabel o.labels "deployment-id" deploymentId)
    "managed-by" "mcp-devops-server", o.payload⟩

/-- Per-resource rollout outcome {type, name, status}. -/
structure DeployedResource where
  type : String
  name : String
  status : String
deriving DecidableEq

/-- The Deployment block of `deployToKubernetes`: create, and on a 409
conflict fall back to `replaceNamespacedDeployment` reporting `updated`;
any other error propagates. -/
def applyDeployment (c : Cluster) (o : K8sObject) :
    Except ApiError (Cluster × DeployedResource) :=
  match createIn c.deployments o with
  | .ok objs => .ok (⟨objs, c.services, c.ingresses, c.rollbackRequests⟩,
      ⟨"deployment", o.name, "created"⟩)
  | .error e =>
    if e.statusCode == some 409 then
      match replaceIn c.deployments o with
      | .ok objs => .ok (⟨objs, c.services, c.ingresses, c.rollbackRequests⟩,
          ⟨"deployment", o.name, "updated"⟩)
      | .error e2 => .error e2
    else .error e

/-- The Service block of `deployToKubernetes`: create, and on a 409
conflict leave the live service untouched reporting `exists`; any other
error propagates. -/
def applyService (c : Cluster) (o : K8sObject) :
    Except ApiError (Cluster × DeployedResource) :=
  match createIn c.services o with
  | .ok objs => .ok (⟨c.deployments, objs, c.ingresses, c.rollbackRequests⟩,
      ⟨"service", o.name, "created"⟩)
  | .error e =>
    if e.statusCode == some 409 then
      .ok (c, ⟨"service", o.name, "exists"⟩)
    else .error e

/-- The Ingress block of `deployToKubernetes`: create, and on a 409
conflict fall back to `replaceNamespacedIngress` reporting `updated`; any
other error propagates. -/
def applyIngress (c : Cluster) (o : K8sObject) :
    Except ApiError (Cluster × DeployedResource) :=
  match createIn c.ingresses o with
  | .ok objs => .ok (⟨c.deployments, c.services, objs, c.rollbackRequests⟩,
      ⟨"ingress", o.name, "created"⟩)
  | .error e =>
    if e.statusCode == some 409 then
      match replaceIn c.ingresses o with
      | .ok objs => .ok (⟨c.deployments, c.services, objs, c.rollbackRequests⟩,
          ⟨"ingress", o.name, "updated"⟩)
      | .error e2 => .error e2
    else .error e

/-- The `kubernetesConfig` argument: each resource optional, skipped when
absent. -/
structure KubernetesConfig where
  deployment : Option K8sObject
  service : Option K8sObject
  ingress : Option K8sObject
deriving DecidableEq

/-- `DeployAgent.deployToKubernetes(kubernetesConfig, namespace, appName,
deploymentId)`: stamps labels and applies deployment, then service, then
ingress, collecting the per-resource outcomes in order; the first
non-conflict cluster error aborts and propagates. -/
def deployToKubernetes (c : Cluster) (cfg : KubernetesConfig)
    (deploymentId : String) : Except ApiError (Cluster × List DeployedResource) := do
  let mut0 : Cluster × List DeployedResource := (c, [])
  let step1 ← match cfg.deployment with
    | none => pure mut0
    | some o => do
      let (c1, r) ← applyDeployment mut0.1 (stampLabels o deploymentId)
      pure (c1, mut0.2 ++ [r])
  let step2 ← match cfg.service with
    | none => pure step1
    | some o => do
      let (c2, r) ← applyService step1.1 (stampLabels o deploymentId)
      pure (c2, step1.2 ++ [r])
  match cfg.ingress with
  | none => pure step2
  | some o => do
    let (c3, r) ← applyIngress step2.1 (stampLabels o deploymentId)
    pure (c3, step2.2 ++ [r])

/-- Result-level view of the Deployment block, with the create and replace
call outcomes injected directly: used to state how non-conflict errors
propagate unchanged. -/
def applyDeploymentR (createRes replaceRes : Except ApiError Unit) :
    Except ApiError String :=
  match createRes with
  | .ok _ => .ok "created"
  | .error e =>
    if e.statusCode == some 409 then
      match replaceRes with
      | .ok _ => .ok "updated"
      | .error e2 => .error e2
    else .error e

/-- Result-level view of the Service block. -/
def applyServiceR (createRes : Except ApiError Unit) : Except ApiError String :=
  match createRes with
  | .ok _ => .ok "created"
  | .error e =>
    if e.statusCode == some 409 then .ok "exists"
    else .error e

/-- Result-level view of the Ingress block. -/
def applyIngressR (createRes replaceRes : Except ApiError Unit) :
    Except ApiError String :=
  match createRes with
  | .ok _ => .ok "created"
  | .error e =>
    if e.statusCode == some 409 then
      match replaceRes with
      | .ok _ => .ok "updated"
      | .error e2 => .error e2
    else .error e

/-- `DeployAgent.rollback(deploymentId, namespace)`: lists deployments
filtered by the `deployment-id` label selector; when none match, throws
the not-found error without touching the cluster; otherwise issues a
revision-rollback request for the first match's current name. -/
def rollback (c : Cluster) (deploymentId : String) : Cluster × Except String String :=
  let matched := c.deployments.filter
    (fun o => o.labels.lookup "deployment-id" == some deploymentId)
  match matched with
  | [] => (c, .error ("No deployment found with ID " ++ deploymentId))
  | d :: _ =>
    (⟨c.deployments, c.services, c.ingresses, c.rollbackRequests ++ [d.name]⟩,
      .ok ("Deployment " ++ d.name ++ " rolled back successfully"))

/-- Descriptor used by concrete witnesses. -/
def oW : K8sObject := ⟨"app", [], 1⟩

/-- A cluster already holding `oW` in every store. -/
def cFull : Cluster := ⟨[oW], [oW], [oW], []⟩

/-- An empty cluster. -/
def cEmpty : Cluster := ⟨[], [], [], []⟩

/-- Cluster used by the C8 witness: one deployment labelled `dep-1`. -/
def cRb : Cluster := ⟨[⟨"app", [("deployment-id", "dep-1")], 0⟩], [], [], []⟩

/-- One ingress rule (`ingress.spec.rules[i]`): its optional host. -/
structure IngressRule where
  host : Option String
deriving DecidableEq

/-- The part of an ingress object `getServiceUrl` inspects: the rule list
and whether a `tls` section is present (JS truthiness of
`ingress.spec.tls`). -/
structure IngressSpec where
  rules : List IngressRule
  tls : Bool
deriving DecidableEq

/-- One `status.loadBalancer.ingress[i]` entry of a service. -/
structure LoadBalancerEntry where
  hostname : Option String
  ip : Option String
deriving DecidableEq

/-- The part of a service object `getServiceUrl` inspects. -/
structure ServiceSpec where
  type : String
  clusterIP : Option String
  ports : List Nat
  lbIngress : List LoadBalancerEntry
deriving DecidableEq

/-- JS `x || d` on a possibly-absent number: absent and `0` are falsy. -/
def jsOrNat (x : Option Nat) (d : Nat) : Nat :=
  match x with
  | some v => if v == 0 then d else v
  | none => d

/-- `lb.hostname || lb.ip`: JS string interpolation of `undefined` when
both are absent. -/
def lbHost (lb : LoadBalancerEntry) : String :=
  match lb.hostname with
  | some h => h
  | none =>
    match lb.ip with
    | some ip => ip
    | none => "undefined"

/-- The synthesized cluster-local DNS name, the unconditional last resort. -/
def clusterLocalUrl (appName namespace_ : String) : String :=
  "http://" ++ appName ++ "-service." ++ namespace_ ++ ".svc.cluster.local"

/-- The cluster-IP tier: `clusterIP && clusterIP !== 'None'` guards the
internal URL, else the synthesized name. -/
def clusterIPTier (appName namespace_ : String) (cip : Option String)
    (port : Nat) : String :=
  match cip with
  | some c =>
    if c != "None" then "http://" ++ c ++ ":" ++ toString port
    else clusterLocalUrl appName namespace_
  | none => clusterLocalUrl appName namespace_

/-- The LoadBalancer tier guard:
`service.spec?.type === 'LoadBalancer' && service.status?.loadBalancer?.ingress?.[0]`. -/
def lbEntry (svc : ServiceSpec) : Option LoadBalancerEntry :=
  if svc.type == "LoadBalancer" then svc.lbIngress.head? else none

/-- The LoadBalancer tier URL: `http://host-or-ip:port`. -/
def lbTier (lb : LoadBalancerEntry) (port : Nat) : String :=
  "http://" ++ lbHost lb ++ ":" ++ toString port

/-- Dispatch between the LoadBalancer tier and the cluster-IP tier. -/
def serviceTiersOkAux (appName namespace_ : String)
    (lbe : Option LoadBalancerEntry) (cip : Option String) (port : Nat) : String :=
  match lbe with
  | some lb => lbTier lb port
  | none => clusterIPTier appName namespace_ cip port

/-- The service tiers on a successful service read: LoadBalancer external
endpoint, then cluster IP, then the synthesized name. -/
def serviceTiersOk (appName namespace_ : String) (svc : ServiceSpec) : String :=
  serviceTiersOkAux appName namespace_ (lbEntry svc) svc.clusterIP
    (jsOrNat svc.ports.head? 80)

/-- The service tiers of `getServiceUrl`: a failed service read falls to
the outer catch, which returns the synthesized name. -/
def serviceTiers (appName namespace_ : String)
    (serviceRes : Except String ServiceSpec) : String :=
  match serviceRes with
  | .error _ => clusterLocalUrl appName namespace_
  | .ok svc => serviceTiersOk appName namespace_ svc

/-- `https://` when a `tls` section is present on the ingress, else
`http://`, prepended to a truthy first host. -/
def hostUrl (tls : Bool) (host : Option String) : Option String :=
  match host with
  | some h => some ((if tls then "https://" else "http://") ++ h)
  | none => none

/-- The ingress tier over the first declared rule. -/
def ingressTierAux (tls : Bool) (r : Option IngressRule) : Option String :=
  match r with
  | some rule => hostUrl tls rule.host
  | none => none

/-- The ingress tier: `ingress.spec?.rules?.[0]?.host` truthy yields the
URL, otherwise the tier is not satisfied. -/
def ingressTier (ing : IngressSpec) : Option String :=
  ingressTierAux ing.tls ing.rules.head?

/-- First-present-wins over the ingress tier result. -/
def withIngressTier (appName namespace_ : String) (t : Option String)
    (serviceRes : Except String ServiceSpec) : String :=
  match t with
  | some url => url
  | none => serviceTiers appName namespace_ serviceRes

/-- `DeployAgent.getServiceUrl(appName, namespace, environment)`:
`ingressRes` and `serviceRes` are the outcomes of the
`readNamespacedIngress` / `readNamespacedService` calls.  An ingress read
error is swallowed (the inner catch) and resolution continues with the
service tiers. -/
def getServiceUrl (appName namespace_ : String)
    (ingressRes : Except String IngressSpec)
    (serviceRes : Except String ServiceSpec) : String :=
  match ingressRes with
  | .ok ing => withIngressTier appName namespace_ (ingressTier ing) serviceRes
  | .error _ => serviceTiers appName namespace_ serviceRes

/-- Ingress of the C7 witness: host `a.example.com`, TLS configured. -/
def ingW : IngressSpec := ⟨[⟨some "a.example.com"⟩], true⟩

/-- LoadBalancer service of the C7 witness: external host `b.example.com`. -/
def svcW : ServiceSpec :=
  ⟨"LoadBalancer", some "10.0.0.5", [80], [⟨some "b.example.com", none⟩]⟩

/-- The fixed sampling cadence (`monitoringInterval = 30` seconds). -/
def monitoringInterval : Nat := 30

/-- `getDeploymentMetrics` success shape (all counters `|| 0`-coalesced to
numbers). -/
structure DeploymentMetrics where
  replicas : ℚ
  ready_replicas : ℚ
  available_replicas : ℚ
  unavailable_replicas : ℚ
  updated_replicas : ℚ
deriving DecidableEq

/-- `getPodMetrics` success shape (the aggregate counters). -/
structure PodMetrics where
  total_pods : ℚ
  running_pods : ℚ
  ready_pods : ℚ
deriving DecidableEq

deriving instance DecidableEq for Except

/-- One `collectMetrics` result: the deployment and pod sub-collections
each degrade to an `{error}` object on their own failures (modelled as the
`.error` case), the health probe always returns a `HealthResult`.  The
service sub-collection is gathered too but never read by the aggregator,
so it is omitted here. -/
structure CollectedMetrics where
  deployment : Except String DeploymentMetrics
  pods : Except String PodMetrics
  health : HealthResult
deriving DecidableEq

/-- A monitoring sample: `{timestamp, ...metrics}` on success,
`{timestamp, error}` when the iteration's collection threw.  Timestamps
are abstracted to the iteration index. -/
inductive MonSample where
  | ok (timestamp : Nat) (metrics : CollectedMetrics)
  | err (timestamp : Nat) (errMsg : String)
deriving DecidableEq

/-- The sample pushed by iteration `i` given its collection outcome. -/
def sampleOf (i : Nat) (res : Except String CollectedMetrics) : MonSample :=
  match res with
  | .ok m => MonSample.ok i m
  | .error e => MonSample.err i e

/-- One loop iteration of `performMonitoring`: push the sample; on success
additionally sleep when `i < iterations - 1` (the sleep sits inside the
`try`, so a failed iteration skips it); the second component accumulates
the indices at which a sleep happened. -/
def monStep (i iterations : Nat) (res : Except String CollectedMetrics)
    (rest : List MonSample × List Nat) : List MonSample × List Nat :=
  match res with
  | .ok m =>
    (MonSample.ok i m :: rest.1,
      if i < iterations - 1 then i :: rest.2 else rest.2)
  | .error e => (MonSample.err i e :: rest.1, rest.2)

/-- The `for (let i = 0; i < iterations; i++)` loop. -/
def monGo (collect : Nat → Except String CollectedMetrics)
    (iterations i : Nat) : List MonSample × List Nat :=
  if _h : i < iterations then
    monStep i iterations (collect i) (monGo collect iterations (i + 1))
  else ([], [])
termination_by iterations - i

/-- `MonitorAgent.performMonitoring(appName, namespace, durationSeconds)`:
`iterations = Math.floor(durationSeconds / monitoringInterval)`. -/
def performMonitoring (collect : Nat → Except String CollectedMetrics)
    (durationSeconds : Nat) : List MonSample × List Nat :=
  monGo collect (durationSeconds / monitoringInterval) 0

/-- Collection oracle of the C3 witness: iteration 1 fails, the others
succeed. -/
def collectW : Nat → Except String CollectedMetrics := fun i =>
  if i == 1 then Except.error "ECONNREFUSED"
  else Except.ok ⟨Except.ok ⟨2, 2, 2, 0, 2⟩, Except.ok ⟨2, 2, 2⟩,
    ⟨"healthy", some 200, "Health check passed"⟩⟩

def isValidSample : MonSample → Bool
  | .ok _ _ => true
  | .err _ _ => false

/-- `monitoringResults.filter(r => !r.error)`. -/
def validOf (results : List MonSample) : List MonSample :=
  results.filter (fun s => isValidSample s)

/-- `getNestedValue(r, 'deployment.ready_replicas')` with the
typeof-number filter of `calculateAverage`: absent when the deployment
sub-collection errored. -/
def sampleReadyReplicas : MonSample → Option ℚ
  | .ok _ m =>
    match m.deployment with
    | .ok dm => some dm.ready_replicas
    | .error _ => none
  | .err _ _ => none

/-- `getNestedValue(r, 'pods.running_pods')`, likewise. -/
def sampleRunningPods : MonSample → Option ℚ
  | .ok _ m =>
    match m.pods with
    | .ok pm => some pm.running_pods
    | .error _ => none
  | .err _ _ => none

/-- `r.health?.status`. -/
def sampleHealthStatus : MonSample → Option String
  | .ok _ m => some m.health.status
  | .err _ _ => none

/-- `calculateAverage`: mean of the numeric values, `0` when none. -/
def calculateAverage (values : List ℚ) : ℚ :=
  if 0 < values.length then values.sum / (values.length : ℚ) else 0

/-- Mean ready-replica count over the valid samples. -/
def avgReadyOf (results : List MonSample) : ℚ :=
  calculateAverage ((validOf results).filterMap sampleReadyReplicas)

/-- Mean running-pod count over the valid samples. -/
def avgPodsOf (results : List MonSample) : ℚ :=
  calculateAverage ((validOf results).filterMap sampleRunningPods)

/-- `healthyChecks`: valid samples whose probe reported `healthy`. -/
def healthyCount (results : List MonSample) : Nat :=
  ((validOf results).filter (fun s => sampleHealthStatus s == some "healthy")).length

/-- `healthPercentage = (healthyChecks / validResults.length) * 100`. -/
def healthPctOf (results : List MonSample) : ℚ :=
  ((healthyCount results : ℚ) / ((validOf results).length : ℚ)) * 100

/-- The verdict thresholds. -/
def reportVerdict (pct : ℚ) : String :=
  if pct ≥ 90 then "healthy" else if pct ≥ 70 then "warning" else "unhealthy"

/-- The three alert conditions, pushed in source order. -/
def reportAlerts (avgReady avgPods pct : ℚ) : List String :=
  (if avgReady < 1 then ["Low replica count detected"] else []) ++
  (if avgPods < 1 then ["Insufficient running pods"] else []) ++
  (if pct < 80 then ["Health check success rate below 80%"] else [])

/-- The two recommendation conditions, pushed in source order. -/
def reportRecommendations (avgReady pct : ℚ) : List String :=
  (if avgReady < 2 then ["Consider increasing replica count for high availability"]
    else []) ++
  (if pct < 90 then ["Investigate health check failures"] else [])

/-- The `metrics` block of a report (the success rate is kept as a number
rather than the `toFixed(1)%` display string). -/
structure ReportMetrics where
  monitoring_duration : Nat
  average_ready_replicas : ℚ
  average_running_pods : ℚ
  health_success_rate : ℚ
  data_points : Nat
deriving DecidableEq

/-- A monitoring report; `metrics = none` models the empty `{}` of the
no-valid-data branch. -/
structure MonitoringReport where
  overall_health : String
  metrics : Option ReportMetrics
  alerts : List String
  recommendations : List String
deriving DecidableEq

/-- `MonitorAgent.generateMonitoringReport(appName, namespace,
monitoringResults)`. -/
def generateMonitoringReport (monitoringResults : List MonSample) :
    MonitoringReport :=
  if (validOf monitoringResults).length == 0 then
    ⟨"unknown", none, ["No valid monitoring data collected"],
      ["Check monitoring configuration and connectivity"]⟩
  else
    ⟨reportVerdict (healthPctOf monitoringResults),
      some ⟨monitoringResults.length, avgReadyOf monitoringResults,
        avgPodsOf monitoringResults, healthPctOf monitoringResults,
        (validOf monitoringResults).length⟩,
      reportAlerts (avgReadyOf monitoringResults) (avgPodsOf monitoringResults)
        (healthPctOf monitoringResults),
      reportRecommendations (avgReadyOf monitoringResults)
        (healthPctOf monitoringResults)⟩

/-- A healthy sample for the aggregator witnesses. -/
def healthySampleW : MonSample :=
  MonSample.ok 0 ⟨Except.ok ⟨2, 2, 2, 0, 2⟩, Except.ok ⟨2, 2, 2⟩,
    ⟨"healthy", some 200, "Health check passed"⟩⟩

/-- An unhealthy-probe sample for the aggregator witnesses. -/
def unhealthySampleW : MonSample :=
  MonSample.ok 0 ⟨Except.ok ⟨2, 2, 2, 0, 2⟩, Except.ok ⟨2, 2, 2⟩,
    ⟨"unhealthy", some 503, "Health check failed"⟩⟩

/-- 10 samples, all healthy: success rate 100%. -/
def samples100 : List MonSample := List.replicate 10 healthySampleW

/-- 20 samples, 17 healthy: success rate 85%. -/
def samples85 : List MonSample :=
  List.replicate 17 healthySampleW ++ List.replicate 3 unhealthySampleW

/-- 10 samples, 6 healthy: success rate 60%. -/
def samples60 : List MonSample :=
  List.replicate 6 healthySampleW ++ List.replicate 4 unhealthySampleW

/-- `MonitorAgent.findDeploymentById(deploymentId, namespace)`:
`listRes` is the outcome of the label-filtered `listNamespacedDeployment`
call; `items[0] || null` on success, and the catch block returns null on
ANY error. -/
def findDeploymentById (listRes : Except ApiError (List K8sObject)) :
    Option K8sObject :=
  match listRes with
  | .ok items => items.head?
  | .error _ => none

/-- The guard in `monitor`: a null lookup becomes the fatal not-found
error. -/
def requireDeployment (deploymentId : String) (d : Option K8sObject) :
    Except String K8sObject :=
  match d with
  | some dep => .ok dep
  | none => .error ("Deployment with ID " ++ deploymentId ++ " not found")

/-- The lookup phase of `MonitorAgent.monitor`. -/
def monitorLookup (deploymentId : String)
    (listRes : Except ApiError (List K8sObject)) : Except String K8sObject :=
  requireDeployment deploymentId (findDeploymentById listRes)

/-- Poll stream of the C1 witness: the deployment never reports readiness
(0 of 0 replicas). -/
def pollsNeverReady : Nat → Except String DeploymentReadiness := fun _ =>
  Except.ok ⟨some 0, some 0⟩

/-- Poll stream of the C1 witness: converged from the first poll
(2 of 2 replicas). -/
def pollsReady : Nat → Except String DeploymentReadiness := fun _ =>
  Except.ok ⟨some 2, some 2⟩

theorem waitGo_ok_iff (appName : String)
    (polls : Nat → Except String DeploymentReadiness) (timeoutMs i : Nat) :
    waitGo appName polls timeoutMs i (pollInterval * i) = Except.ok () ↔
      ∃ k, i ≤ k ∧ pollInterval * k < timeoutMs ∧ pollOnce (polls k) = true := by
  rw [waitGo]
  by_cases h : pollInterval * i < timeoutMs
  · rw [dif_pos h]
    by_cases hc : pollOnce (polls i) = true
    · rw [if_pos hc]
      constructor
      · intro _
        exact ⟨i, Nat.le_refl i, h, hc⟩
      · intro _
        rfl
    · rw [if_neg hc]
      have hstep : pollInterval * i + pollInterval = pollInterval * (i + 1) := by
        ring
      rw [hstep, waitGo_ok_iff appName polls timeoutMs (i + 1)]
      constructor
      · rintro ⟨k, hk1, hk2, hk3⟩
        exact ⟨k, by omega, hk2, hk3⟩
      · rintro ⟨k, hk1, hk2, hk3⟩
        refine ⟨k, ?_, hk2, hk3⟩
        rcases Nat.eq_or_lt_of_le hk1 with heq | hlt
        · exact absurd (heq ▸ hk3) hc
        · omega
  · rw [dif_neg h]
    constructor
    · intro hfalse
      simp at hfalse
    · rintro ⟨k, hk1, hk2, _⟩
      exfalso
      have : pollInterval * i ≤ pollInterval * k := Nat.mul_le_mul_left _ hk1
      omega
termination_by timeoutMs - pollInterval * i
decreasing_by
  all_goals simp only [pollInterval] at *
  all_goals omega

theorem waitGo_error_msg (appName : String)
    (polls : Nat → Except String DeploymentReadiness) (timeoutMs i elapsed : Nat)
    (msg : String) (h : waitGo appName polls timeoutMs i elapsed = Except.error msg) :
    msg = "Deployment " ++ appName ++ " did not become ready within " ++
      toString timeoutMs ++ "ms" := by
  rw [waitGo] at h
  by_cases hlt : elapsed < timeoutMs
  · rw [dif_pos hlt] at h
    by_cases hc : pollOnce (polls i) = true
    · rw [if_pos hc] at h
      simp at h
    · rw [if_neg hc] at h
      exact waitGo_error_msg appName polls timeoutMs (i + 1) (elapsed + pollInterval) msg h
  · rw [dif_neg hlt] at h
    simpa using h.symm
termination_by timeoutMs - elapsed
decreasing_by
  all_goals simp only [pollInterval] at *
  all_goals omega

/-- C1: the readiness wait succeeds iff some poll performed before the
deadline observes `readyReplicas == desiredReplicas > 0`; read errors are
transient (a poll returning `.error` never satisfies `pollOnce`, yet
polling continues past it); otherwise the loop terminates (the function is
total by construction) with the fatal timeout error; the default deadline
is 300000 ms and the poll interval 5000 ms. -/
theorem waitForDeployment_converges_iff (appName : String)
    (polls : Nat → Except String DeploymentReadiness) (timeoutMs : Nat) :
    (waitForDeployment appName polls timeoutMs = Except.ok () ↔
      ∃ k, pollInterval * k < timeoutMs ∧ pollOnce (polls k) = true) ∧
    ((∀ k, pollInterval * k < timeoutMs → pollOnce (polls k) = false) →
      waitForDeployment appName polls timeoutMs =
        Except.error ("Deployment " ++ appName ++ " did not become ready within " ++
          toString timeoutMs ++ "ms")) ∧
    defaultTimeoutMs = 300000 ∧ pollInterval = 5000 := by
  have hbase := waitGo_ok_iff appName polls timeoutMs 0
  rw [Nat.mul_zero] at hbase
  refine ⟨?_, ?_, rfl, rfl⟩
  · rw [waitForDeployment, hbase]
    constructor
    · rintro ⟨k, _, hk2, hk3⟩
      exact ⟨k, hk2, hk3⟩
    · rintro ⟨k, hk2, hk3⟩
      exact ⟨k, Nat.zero_le k, hk2, hk3⟩
  · intro hall
    rw [waitForDeployment]
    cases hres : waitGo appName polls timeoutMs 0 0 with
    | ok u =>
      exfalso
      have hex := hbase.mp (by rw [hres])
      rcases hex with ⟨k, _, hk2, hk3⟩
      rw [hall k hk2] at hk3
      exact Bool.false_ne_true hk3
    | error msg =>
      rw [waitGo_error_msg appName polls timeoutMs 0 0 msg hres]

/-- The shape returned by `MonitorAgent.performHealthCheck`: a status
classification, the HTTP status code when a response was obtained, and a
message. -/
theorem performHealthCheck_healthy_iff_200 (url : String) (code : Nat) (e : String) :
    ((performHealthCheck (some url) (Except.ok code)).status = "healthy" ↔ code = 200) ∧
    (performHealthCheck (some url) (Except.ok code)).status_code = some code ∧
    (code ≠ 200 → (performHealthCheck (some url) (Except.ok code)).status = "unhealthy") ∧
    (performHealthCheck (some url) (Except.ok 201)).status = "unhealthy" ∧
    (performHealthCheck (some url) (Except.ok 204)).status = "unhealthy" ∧
    (performHealthCheck (some url) (Except.error e)).status = "unhealthy" := by
  refine ⟨?_, ?_, ?_, rfl, rfl, rfl⟩
  · by_cases hc : code = 200
    · subst hc
      simp [performHealthCheck]
    · simp [performHealthCheck, hc]
  · rfl
  · intro hc
    simp [performHealthCheck, hc]

/-- C10 witness. -/
theorem performHealthCheck_healthy_iff_200_witness :
    (204 : Nat) ≠ 200 ∧
      (performHealthCheck (some "http://10.0.0.1:80") (Except.ok 204)).status =
        "unhealthy" :=
  ⟨by decide,
    (performHealthCheck_healthy_iff_200 "http://10.0.0.1:80" 204 "x").2.2.1 (by decide)⟩

/-- A cluster-API error as the agents observe it:
`error.response?.statusCode` plus a message. -/
theorem findObj_replace (objs : List K8sObject) (o : K8sObject)
    (h : (findObj objs o.name).isSome = true) :
    findObj (objs.map (fun x => if x.name == o.name then o else x)) o.name = some o := by
  induction objs with
  | nil => simp [findObj] at h
  | cons x xs ih =>
    by_cases hx : (x.name == o.name) = true
    · rw [List.map_cons, if_pos hx, findObj, List.find?_cons_of_pos _ (by simp)]
    · rw [List.map_cons, if_neg hx, findObj,
        List.find?_cons_of_neg _ (by simpa using hx)]
      rw [findObj, List.find?_cons_of_neg _ (by simpa using hx)] at h
      exact ih h

theorem findObj_append_self (objs : List K8sObject) (o : K8sObject) :
    (findObj (objs ++ [o]) o.name).isSome = true := by
  induction objs with
  | nil =>
    rw [List.nil_append, findObj, List.find?_cons_of_pos _ (by simp)]
    rfl
  | cons x xs ih =>
    by_cases hx : (x.name == o.name) = true
    · rw [List.cons_append, findObj,
        List.find?_cons_of_pos (p := fun y : K8sObject => y.name == o.name) _ hx]
      rfl
    · rw [List.cons_append, findObj,
        List.find?_cons_of_neg (p := fun y : K8sObject => y.name == o.name) _ (by simpa using hx)]
      exact ih

theorem applyDeployment_present (c : Cluster) (o : K8sObject)
    (h : (findObj c.deployments o.name).isSome = true) :
    applyDeployment c o =
      Except.ok (⟨c.deployments.map (fun x => if x.name == o.name then o else x),
        c.services, c.ingresses, c.rollbackRequests⟩,
        ⟨"deployment", o.name, "updated"⟩) := by
  unfold applyDeployment
  rw [createIn, if_pos h, replaceIn, if_pos h]
  rfl

theorem applyDeployment_absent (c : Cluster) (o : K8sObject)
    (h : findObj c.deployments o.name = none) :
    applyDeployment c o =
      Except.ok (⟨c.deployments ++ [o], c.services, c.ingresses, c.rollbackRequests⟩,
        ⟨"deployment", o.name, "created"⟩) := by
  unfold applyDeployment
  rw [createIn, if_neg (by simp [h])]

theorem applyService_present (c : Cluster) (o : K8sObject)
    (h : (findObj c.services o.name).isSome = true) :
    applyService c o = Except.ok (c, ⟨"service", o.name, "exists"⟩) := by
  unfold applyService
  rw [createIn, if_pos h]
  rfl

theorem applyService_absent (c : Cluster) (o : K8sObject)
    (h : findObj c.services o.name = none) :
    applyService c o =
      Except.ok (⟨c.deployments, c.services ++ [o], c.ingresses, c.rollbackRequests⟩,
        ⟨"service", o.name, "created"⟩) := by
  unfold applyService
  rw [createIn, if_neg (by simp [h])]

theorem applyIngress_present (c : Cluster) (o : K8sObject)
    (h : (findObj c.ingresses o.name).isSome = true) :
    applyIngress c o =
      Except.ok (⟨c.deployments, c.services,
        c.ingresses.map (fun x => if x.name == o.name then o else x),
        c.rollbackRequests⟩,
        ⟨"ingress", o.name, "updated"⟩) := by
  unfold applyIngress
  rw [createIn, if_pos h, replaceIn, if_pos h]
  rfl

theorem applyIngress_absent (c : Cluster) (o : K8sObject)
    (h : findObj c.ingresses o.name = none) :
    applyIngress c o =
      Except.ok (⟨c.deployments, c.services, c.ingresses ++ [o], c.rollbackRequests⟩,
        ⟨"ingress", o.name, "created"⟩) := by
  unfold applyIngress
  rw [createIn, if_neg (by simp [h])]

/-- C2: on the conflict condition (an object of the descriptor's name
already exists) the apply never reports `created` and never throws — a
Deployment or Ingress is fully replaced (`updated`, and the live object
afterwards is the submitted one), a Service is left untouched (`exists`,
same cluster); consequently applying the same descriptor twice from a
state without the object yields `created` then `updated`/`exists`; and any
non-conflict cluster failure — a create failure other than 409, or a
failure of the fallback replace — propagates unchanged. -/
theorem applyResource_conflict_semantics (c : Cluster) (o : K8sObject) :
    ((findObj c.deployments o.name).isSome = true →
      ∃ c2, applyDeployment c o = Except.ok (c2, ⟨"deployment", o.name, "updated"⟩) ∧
        findObj c2.deployments o.name = some o) ∧
    ((findObj c.services o.name).isSome = true →
      applyService c o = Except.ok (c, ⟨"service", o.name, "exists"⟩)) ∧
    ((findObj c.ingresses o.name).isSome = true →
      ∃ c2, applyIngress c o = Except.ok (c2, ⟨"ingress", o.name, "updated"⟩) ∧
        findObj c2.ingresses o.name = some o) ∧
    (findObj c.deployments o.name = none →
      ∃ c1 c2, applyDeployment c o = Except.ok (c1, ⟨"deployment", o.name, "created"⟩) ∧
        applyDeployment c1 o = Except.ok (c2, ⟨"deployment", o.name, "updated"⟩)) ∧
    (findObj c.services o.name = none →
      ∃ c1, applyService c o = Except.ok (c1, ⟨"service", o.name, "created"⟩) ∧
        applyService c1 o = Except.ok (c1, ⟨"service", o.name, "exists"⟩)) ∧
    (findObj c.ingresses o.name = none →
      ∃ c1 c2, applyIngress c o = Except.ok (c1, ⟨"ingress", o.name, "created"⟩) ∧
        applyIngress c1 o = Except.ok (c2, ⟨"ingress", o.name, "updated"⟩)) ∧
    (∀ e r, e.statusCode ≠ some 409 →
      applyDeploymentR (Except.error e) r = Except.error e ∧
      applyServiceR (Except.error e) = Except.error e ∧
      applyIngressR (Except.error e) r = Except.error e) ∧
    (∀ e2, applyDeploymentR (Except.error conflictError) (Except.error e2) =
        Except.error e2 ∧
      applyIngressR (Except.error conflictError) (Except.error e2) =
        Except.error e2) := by
  refine ⟨?_, ?_, ?_, ?_, ?_, ?_, ?_, ?_⟩
  · intro h
    exact ⟨_, applyDeployment_present c o h, findObj_replace c.deployments o h⟩
  · intro h
    exact applyService_present c o h
  · intro h
    exact ⟨_, applyIngress_present c o h, findObj_replace c.ingresses o h⟩
  · intro h
    refine ⟨_, _, applyDeployment_absent c o h, applyDeployment_present _ o ?_⟩
    exact findObj_append_self c.deployments o
  · intro h
    refine ⟨_, applyService_absent c o h, applyService_present _ o ?_⟩
    exact findObj_append_self c.services o
  · intro h
    refine ⟨_, _, applyIngress_absent c o h, applyIngress_present _ o ?_⟩
    exact findObj_append_self c.ingresses o
  · intro e r he
    have heb : (e.statusCode == some 409) = false := by
      simpa using he
    refine ⟨?_, ?_, ?_⟩
    · simp [applyDeploymentR, heb]
    · simp [applyServiceR, heb]
    · simp [applyIngressR, heb]
  · intro e2
    exact ⟨rfl, rfl⟩

/-- C2 witness. -/
theorem applyResource_conflict_semantics_witness :
    (∃ c2, applyDeployment cFull oW = Except.ok (c2, ⟨"deployment", oW.name, "updated"⟩) ∧
      findObj c2.deployments oW.name = some oW) ∧
    (∃ c1 c2, applyDeployment cEmpty oW = Except.ok (c1, ⟨"deployment", oW.name, "created"⟩) ∧
      applyDeployment c1 oW = Except.ok (c2, ⟨"deployment", oW.name, "updated"⟩)) ∧
    applyService cFull oW = Except.ok (cFull, ⟨"service", oW.name, "exists"⟩) :=
  ⟨(applyResource_conflict_semantics cFull oW).1 (by decide),
   (applyResource_conflict_semantics cEmpty oW).2.2.2.1 (by decide),
   (applyResource_conflict_semantics cFull oW).2.1 (by decide)⟩

/-- C8: rollback with a correlation identifier matching no deployment in
the namespace returns the not-found error and leaves the cluster untouched
(in particular no revision-rollback request is issued); with at least one
match, the revision-rollback request is issued for the first match's
current name. -/
theorem rollback_not_found_no_mutation (c : Cluster) (deploymentId : String) :
    ((∀ o ∈ c.deployments, o.labels.lookup "deployment-id" ≠ some deploymentId) →
      rollback c deploymentId =
        (c, Except.error ("No deployment found with ID " ++ deploymentId))) ∧
    (∀ d rest,
      c.deployments.filter
        (fun o => o.labels.lookup "deployment-id" == some deploymentId) = d :: rest →
      rollback c deploymentId =
        (⟨c.deployments, c.services, c.ingresses, c.rollbackRequests ++ [d.name]⟩,
          Except.ok ("Deployment " ++ d.name ++ " rolled back successfully"))) := by
  constructor
  · intro h
    have hfil : c.deployments.filter
        (fun o => o.labels.lookup "deployment-id" == some deploymentId) = [] := by
      rw [List.filter_eq_nil_iff]
      intro o ho
      simpa using h o ho
    unfold rollback
    rw [hfil]
  · intro d rest hfil
    unfold rollback
    rw [hfil]

/-- C8 witness. -/
theorem rollback_not_found_no_mutation_witness :
    rollback cRb "dep-2" = (cRb, Except.error ("No deployment found with ID " ++ "dep-2")) ∧
    rollback cRb "dep-1" =
      (⟨cRb.deployments, cRb.services, cRb.ingresses, cRb.rollbackRequests ++ ["app"]⟩,
        Except.ok ("Deployment " ++ "app" ++ " rolled back successfully")) :=
  ⟨(rollback_not_found_no_mutation cRb "dep-2").1 (by decide),
   (rollback_not_found_no_mutation cRb "dep-1").2 ⟨"app", [("deployment-id", "dep-1")], 0⟩ []
     (by decide)⟩

theorem append_len_pos (p q : String) (hp : 0 < p.length) :
    0 < (p ++ q).length := by
  rw [String.length_append]
  omega

theorem append_ne_empty (p q : String) (hp : 0 < p.length) : p ++ q ≠ "" := by
  intro hc
  have hl := append_len_pos p q hp
  rw [hc] at hl
  exact absurd hl (by decide)

theorem clusterLocalUrl_ne_empty (appName namespace_ : String) :
    clusterLocalUrl appName namespace_ ≠ "" := by
  unfold clusterLocalUrl
  exact append_ne_empty ("http://" ++ appName ++ "-service." ++ namespace_)
    ".svc.cluster.local"
    (append_len_pos ("http://" ++ appName ++ "-service.") namespace_
      (append_len_pos ("http://" ++ appName) "-service."
        (append_len_pos "http://" appName (by decide))))

theorem lbTier_ne_empty (lb : LoadBalancerEntry) (port : Nat) :
    lbTier lb port ≠ "" := by
  unfold lbTier
  exact append_ne_empty ("http://" ++ lbHost lb ++ ":") (toString port)
    (append_len_pos ("http://" ++ lbHost lb) ":"
      (append_len_pos "http://" (lbHost lb) (by decide)))

theorem clusterIPTier_ne_empty (appName namespace_ : String)
    (cip : Option String) (port : Nat) :
    clusterIPTier appName namespace_ cip port ≠ "" := by
  cases cip with
  | none =>
    simp only [clusterIPTier]
    exact clusterLocalUrl_ne_empty appName namespace_
  | some c =>
    simp only [clusterIPTier]
    by_cases hn : (c != "None") = true
    · rw [if_pos hn]
      exact append_ne_empty ("http://" ++ c ++ ":") (toString port)
        (append_len_pos ("http://" ++ c) ":"
          (append_len_pos "http://" c (by decide)))
    · rw [if_neg hn]
      exact clusterLocalUrl_ne_empty appName namespace_

theorem serviceTiers_ne_empty (appName namespace_ : String)
    (serviceRes : Except String ServiceSpec) :
    serviceTiers appName namespace_ serviceRes ≠ "" := by
  cases serviceRes with
  | error e =>
    simp only [serviceTiers]
    exact clusterLocalUrl_ne_empty appName namespace_
  | ok svc =>
    simp only [serviceTiers, serviceTiersOk]
    cases hlb : lbEntry svc with
    | some lb =>
      simp only [serviceTiersOkAux]
      exact lbTier_ne_empty lb (jsOrNat svc.ports.head? 80)
    | none =>
      simp only [serviceTiersOkAux]
      exact clusterIPTier_ne_empty appName namespace_ svc.clusterIP
        (jsOrNat svc.ports.head? 80)

/-- C6: address resolution is total and never empty — every lookup error
is swallowed (the function returns a `String`, not an `Except`), and when
both the ingress and the service reads fail the synthesized cluster-local
name is returned. -/
theorem getServiceUrl_always_resolves (appName namespace_ : String)
    (ingressRes : Except String IngressSpec)
    (serviceRes : Except String ServiceSpec) :
    getServiceUrl appName namespace_ ingressRes serviceRes ≠ "" ∧
    (∀ e1 e2, getServiceUrl appName namespace_ (Except.error e1) (Except.error e2) =
      "http://" ++ appName ++ "-service." ++ namespace_ ++ ".svc.cluster.local") := by
  constructor
  · cases ingressRes with
    | error e =>
      simp only [getServiceUrl]
      exact serviceTiers_ne_empty appName namespace_ serviceRes
    | ok ing =>
      simp only [getServiceUrl]
      cases ht : ingressTier ing with
      | none =>
        simp only [withIngressTier]
        exact serviceTiers_ne_empty appName namespace_ serviceRes
      | some url =>
        simp only [withIngressTier]
        unfold ingressTier at ht
        cases hr : ing.rules.head? with
        | none =>
          rw [hr] at ht
          simp [ingressTierAux] at ht
        | some r =>
          rw [hr] at ht
          simp only [ingressTierAux] at ht
          cases hh : r.host with
          | none =>
            rw [hh] at ht
            simp [hostUrl] at ht
          | some h =>
            rw [hh] at ht
            simp only [hostUrl, Option.some.injEq] at ht
            rw [← ht]
            cases ing.tls with
            | true =>
              rw [if_pos rfl]
              exact append_ne_empty "https://" h (by decide)
            | false =>
              rw [if_neg Bool.false_ne_true]
              exact append_ne_empty "http://" h (by decide)
  · intro e1 e2
    rfl

/-- C6 witness. -/
theorem getServiceUrl_always_resolves_witness :
    getServiceUrl "myapp" "staging" (Except.error "conn refused")
      (Except.error "conn refused") ≠ "" :=
  (getServiceUrl_always_resolves "myapp" "staging" (Except.error "conn refused")
    (Except.error "conn refused")).1

/-- C7: the ingress tier is the top of the total tier order — whenever the
ingress read succeeds and the first declared rule carries a host, the
result is that host with `https://` iff TLS is configured, regardless of
what the service lookup would have returned (a LoadBalancer with an
external endpoint included). -/
theorem getServiceUrl_ingress_wins (appName namespace_ h : String)
    (ing : IngressSpec) (r : IngressRule) (rest : List IngressRule)
    (serviceRes : Except String ServiceSpec)
    (hrules : ing.rules = r :: rest) (hhost : r.host = some h) :
    getServiceUrl appName namespace_ (Except.ok ing) serviceRes =
      (if ing.tls then "https://" else "http://") ++ h := by
  have ht : ingressTier ing = some ((if ing.tls then "https://" else "http://") ++ h) := by
    unfold ingressTier
    rw [hrules, List.head?_cons]
    simp only [ingressTierAux]
    rw [hhost]
    simp only [hostUrl]
  simp only [getServiceUrl, ht, withIngressTier]

/-- C7 witness: with both present, the ingress wins and the result is
`https://a.example.com`. -/
theorem getServiceUrl_ingress_wins_witness :
    ingW.rules = ⟨some "a.example.com"⟩ :: [] ∧
    getServiceUrl "myapp" "staging" (Except.ok ingW) (Except.ok svcW) =
      "https://" ++ "a.example.com" :=
  ⟨rfl,
    getServiceUrl_ingress_wins "myapp" "staging" "a.example.com" ingW
      ⟨some "a.example.com"⟩ [] (Except.ok svcW) rfl rfl⟩

theorem monStep_fst (i iterations : Nat) (res : Except String CollectedMetrics)
    (rest : List MonSample × List Nat) :
    (monStep i iterations res rest).1 = sampleOf i res :: rest.1 := by
  cases res <;> rfl

theorem monStep_snd (i iterations : Nat) (res : Except String CollectedMetrics)
    (rest : List MonSample × List Nat) :
    (monStep i iterations res rest).2 = rest.2 ∨
    ((monStep i iterations res rest).2 = i :: rest.2 ∧ i < iterations - 1) := by
  cases res with
  | ok m =>
    by_cases hl : i < iterations - 1
    · right
      exact ⟨by simp [monStep, hl], hl⟩
    · left
      simp [monStep, hl]
  | error e =>
    left
    rfl

theorem monGo_samples (collect : Nat → Except String CollectedMetrics)
    (iterations i : Nat) :
    (monGo collect iterations i).1 =
      (List.range' i (iterations - i)).map (fun k => sampleOf k (collect k)) := by
  rw [monGo]
  by_cases h : i < iterations
  · rw [dif_pos h]
    have hn : iterations - i = (iterations - (i + 1)) + 1 := by omega
    rw [hn, List.range'_succ, List.map_cons, monStep_fst,
      monGo_samples collect iterations (i + 1)]
  · rw [dif_neg h]
    have hn : iterations - i = 0 := by omega
    rw [hn]
    rfl
termination_by iterations - i
decreasing_by
  all_goals omega

theorem monGo_sleeps (collect : Nat → Except String CollectedMetrics)
    (iterations i : Nat) :
    ∀ j ∈ (monGo collect iterations i).2, j + 1 < iterations := by
  rw [monGo]
  by_cases h : i < iterations
  · rw [dif_pos h]
    rcases monStep_snd i iterations (collect i) (monGo collect iterations (i + 1))
      with heq | ⟨heq, hl⟩
    · rw [heq]
      intro j hj
      exact monGo_sleeps collect iterations (i + 1) j hj
    · rw [heq]
      intro j hj
      rcases List.mem_cons.mp hj with hji | hjr
      · omega
      · exact monGo_sleeps collect iterations (i + 1) j hjr
  · rw [dif_neg h]
    intro j hj
    exact absurd hj (List.not_mem_nil j)
termination_by iterations - i
decreasing_by
  all_goals omega

/-- C3: a campaign over `durationSeconds` produces exactly
`durationSeconds / 30` samples — the sample list is the pointwise image of
the collection outcomes, so a failed collection contributes an error
sample rather than aborting; below 30 seconds no sample is produced; and
every sleep happens strictly between iterations (never after the last
one). -/
theorem performMonitoring_sample_count (collect : Nat → Except String CollectedMetrics)
    (durationSeconds : Nat) :
    ((performMonitoring collect durationSeconds).1 =
      (List.range (durationSeconds / monitoringInterval)).map
        (fun k => sampleOf k (collect k))) ∧
    (performMonitoring collect durationSeconds).1.length =
      durationSeconds / monitoringInterval ∧
    (durationSeconds < monitoringInterval →
      (performMonitoring collect durationSeconds).1 = []) ∧
    (∀ j ∈ (performMonitoring collect durationSeconds).2,
      j + 1 < durationSeconds / monitoringInterval) ∧
    monitoringInterval = 30 := by
  have hs := monGo_samples collect (durationSeconds / monitoringInterval) 0
  rw [Nat.sub_zero] at hs
  have hrange : List.range (durationSeconds / monitoringInterval) =
      List.range' 0 (durationSeconds / monitoringInterval) := List.range_eq_range' _
  refine ⟨?_, ?_, ?_, ?_, rfl⟩
  · rw [performMonitoring, hs, hrange]
  · rw [performMonitoring, hs, List.length_map, List.length_range']
  · intro hlt
    have hz : durationSeconds / monitoringInterval = 0 := Nat.div_eq_of_lt hlt
    rw [performMonitoring, hs, hz]
    rfl
  · exact monGo_sleeps collect (durationSeconds / monitoringInterval) 0

/-- C3 witness: 95 seconds yield exactly 3 samples (one of them an error
sample), 30 seconds yield exactly 1, 20 seconds yield none. -/
theorem performMonitoring_sample_count_witness :
    (performMonitoring collectW 95).1.length = 3 ∧
    (performMonitoring collectW 30).1.length = 1 ∧
    ((20 : Nat) < monitoringInterval ∧ (performMonitoring collectW 20).1 = []) := by
  refine ⟨?_, ?_, by decide, (performMonitoring_sample_count collectW 20).2.2.1 (by decide)⟩
  · have h := (performMonitoring_sample_count collectW 95).2.1
    simpa using h
  · have h := (performMonitoring_sample_count collectW 30).2.1
    simpa using h

/-- `!r.error`: whether a sample carries metrics rather than an error. -/
theorem reportVerdict_iff (pct : ℚ) :
    (reportVerdict pct = "healthy" ↔ 90 ≤ pct) ∧
    (reportVerdict pct = "warning" ↔ (70 ≤ pct ∧ pct < 90)) ∧
    (reportVerdict pct = "unhealthy" ↔ pct < 70) := by
  unfold reportVerdict
  by_cases h90 : 90 ≤ pct
  · rw [if_pos h90]
    refine ⟨⟨fun _ => h90, fun _ => rfl⟩, ?_, ?_⟩
    · constructor
      · intro hc
        exact absurd hc (by decide)
      · intro ⟨_, hlt⟩
        exact absurd h90 (not_le.mpr hlt)
    · constructor
      · intro hc
        exact absurd hc (by decide)
      · intro hlt
        exact absurd h90 (not_le.mpr (lt_of_lt_of_le hlt (by norm_num)))
  · rw [if_neg h90]
    by_cases h70 : 70 ≤ pct
    · rw [if_pos h70]
      refine ⟨?_, ?_, ?_⟩
      · constructor
        · intro hc
          exact absurd hc (by decide)
        · intro hge
          exact absurd hge h90
      · exact ⟨fun _ => ⟨h70, not_le.mp h90⟩, fun _ => rfl⟩
      · constructor
        · intro hc
          exact absurd hc (by decide)
        · intro hlt
          exact absurd h70 (not_le.mpr hlt)
    · rw [if_neg h70]
      refine ⟨?_, ?_, ?_⟩
      · constructor
        · intro hc
          exact absurd hc (by decide)
        · intro hge
          exact absurd (le_trans (by norm_num) hge) h70
      · constructor
        · intro hc
          exact absurd hc (by decide)
        · intro ⟨hge, _⟩
          exact absurd hge h70
      · exact ⟨fun _ => not_le.mp h70, fun _ => rfl⟩

theorem reportAlerts_mem (avgReady avgPods pct : ℚ) :
    (("Low replica count detected" ∈ reportAlerts avgReady avgPods pct) ↔ avgReady < 1) ∧
    (("Insufficient running pods" ∈ reportAlerts avgReady avgPods pct) ↔ avgPods < 1) ∧
    (("Health check success rate below 80%" ∈ reportAlerts avgReady avgPods pct) ↔
      pct < 80) := by
  unfold reportAlerts
  by_cases h1 : avgReady < 1 <;> by_cases h2 : avgPods < 1 <;> by_cases h3 : pct < 80 <;>
    simp [h1, h2, h3]

theorem reportRecommendations_mem (avgReady pct : ℚ) :
    (("Consider increasing replica count for high availability" ∈
      reportRecommendations avgReady pct) ↔ avgReady < 2) ∧
    (("Investigate health check failures" ∈ reportRecommendations avgReady pct) ↔
      pct < 90) := by
  unfold reportRecommendations
  by_cases h1 : avgReady < 2 <;> by_cases h2 : pct < 90 <;> simp [h1, h2]

/-- C4: on a non-empty valid-sample set the verdict is `healthy` iff the
success rate is ≥ 90, `warning` iff it is in [70, 90), `unhealthy` iff
below 70; each alert is present exactly under its condition (mean ready
replicas < 1, mean running pods < 1, success rate < 80) and each
recommendation exactly under its condition (mean ready replicas < 2,
success rate < 90). -/
theorem generateMonitoringReport_thresholds (results : List MonSample)
    (h : validOf results ≠ []) :
    ((generateMonitoringReport results).overall_health = "healthy" ↔
      90 ≤ healthPctOf results) ∧
    ((generateMonitoringReport results).overall_health = "warning" ↔
      (70 ≤ healthPctOf results ∧ healthPctOf results < 90)) ∧
    ((generateMonitoringReport results).overall_health = "unhealthy" ↔
      healthPctOf results < 70) ∧
    (("Low replica count detected" ∈ (generateMonitoringReport results).alerts) ↔
      avgReadyOf results < 1) ∧
    (("Insufficient running pods" ∈ (generateMonitoringReport results).alerts) ↔
      avgPodsOf results < 1) ∧
    (("Health check success rate below 80%" ∈
      (generateMonitoringReport results).alerts) ↔ healthPctOf results < 80) ∧
    (("Consider increasing replica count for high availability" ∈
      (generateMonitoringReport results).recommendations) ↔ avgReadyOf results < 2) ∧
    (("Investigate health check failures" ∈
      (generateMonitoringReport results).recommendations) ↔
      healthPctOf results < 90) := by
  have hcond : ((validOf results).length == 0) = false := by
    have hne : (validOf results).length ≠ 0 := by
      intro hz
      exact h (List.length_eq_zero.mp hz)
    simpa using hne
  unfold generateMonitoringReport
  rw [hcond]
  simp only [Bool.false_eq_true, if_false]
  have hv := reportVerdict_iff (healthPctOf results)
  have ha := reportAlerts_mem (avgReadyOf results) (avgPodsOf results)
    (healthPctOf results)
  have hr := reportRecommendations_mem (avgReadyOf results) (healthPctOf results)
  exact ⟨hv.1, hv.2.1, hv.2.2, ha.1, ha.2.1, ha.2.2, hr.1, hr.2⟩

theorem healthPct_samples100 : healthPctOf samples100 = 100 := by
  have hh : healthyCount samples100 = 10 := by decide
  have hv : (validOf samples100).length = 10 := by decide
  rw [healthPctOf, hh, hv]
  norm_num

theorem healthPct_samples85 : healthPctOf samples85 = 85 := by
  have hh : healthyCount samples85 = 17 := by decide
  have hv : (validOf samples85).length = 20 := by decide
  rw [healthPctOf, hh, hv]
  norm_num

theorem healthPct_samples60 : healthPctOf samples60 = 60 := by
  have hh : healthyCount samples60 = 6 := by decide
  have hv : (validOf samples60).length = 10 := by decide
  rw [healthPctOf, hh, hv]
  norm_num

/-- C4 witness: success rates 100%, 85% and 60% yield the verdicts
`healthy`, `warning` and `unhealthy` respectively. -/
theorem generateMonitoringReport_thresholds_witness :
    (generateMonitoringReport samples100).overall_health = "healthy" ∧
    (generateMonitoringReport samples85).overall_health = "warning" ∧
    (generateMonitoringReport samples60).overall_health = "unhealthy" :=
  ⟨(generateMonitoringReport_thresholds samples100 (by decide)).1.mpr
      (by rw [healthPct_samples100]; norm_num),
   (generateMonitoringReport_thresholds samples85 (by decide)).2.1.mpr
      (by rw [healthPct_samples85]; norm_num),
   (generateMonitoringReport_thresholds samples60 (by decide)).2.2.1.mpr
      (by rw [healthPct_samples60]; norm_num)⟩

/-- C5: when every sample is an error sample the aggregator returns the
fixed degenerate report — verdict `unknown`, empty metrics, exactly one
alert (no valid data) and exactly one recommendation (check
connectivity) — and no averaging happens (the report carries no averaged
metrics at all). -/
theorem generateMonitoringReport_all_errors (results : List MonSample)
    (h : ∀ s ∈ results, isValidSample s = false) :
    generateMonitoringReport results =
      ⟨"unknown", none, ["No valid monitoring data collected"],
        ["Check monitoring configuration and connectivity"]⟩ ∧
    (generateMonitoringReport results).alerts.length = 1 ∧
    (generateMonitoringReport results).recommendations.length = 1 := by
  have hnil : validOf results = [] := by
    rw [validOf, List.filter_eq_nil_iff]
    intro s hs
    simp [h s hs]
  have hrep : generateMonitoringReport results =
      ⟨"unknown", none, ["No valid monitoring data collected"],
        ["Check monitoring configuration and connectivity"]⟩ := by
    unfold generateMonitoringReport
    rw [hnil]
    rfl
  refine ⟨hrep, ?_, ?_⟩
  · rw [hrep]
    rfl
  · rw [hrep]
    rfl

/-- C5 witness: a campaign whose two samples both errored. -/
theorem generateMonitoringReport_all_errors_witness :
    generateMonitoringReport [MonSample.err 0 "boom", MonSample.err 1 "boom"] =
      ⟨"unknown", none, ["No valid monitoring data collected"],
        ["Check monitoring configuration and connectivity"]⟩ :=
  (generateMonitoringReport_all_errors [MonSample.err 0 "boom", MonSample.err 1 "boom"]
    (by decide)).1

/-- C9 counterexample: an unclassified cluster-API error (HTTP 500) during
the Monitor lookup is NOT propagated verbatim — `findDeploymentById`
swallows it and `monitor` raises the not-found failure instead, the very
conversion the claim rules out. -/
theorem monitorLookup_masks_unclassified_error :
    findDeploymentById (Except.error ⟨some 500, "etcdserver: request timed out"⟩) =
      none ∧
    monitorLookup "dep-1"
      (Except.error ⟨some 500, "etcdserver: request timed out"⟩) =
      Except.error ("Deployment with ID " ++ "dep-1" ++ " not found") :=
  ⟨rfl, rfl⟩

/-- C9 (amended): every cluster-API error during the Monitor lookup —
unclassified ones included — is swallowed by `findDeploymentById` (which
returns null) and thereby converted into the fatal not-found failure; that
same failure also covers a successful lookup returning zero matches, while
a successful lookup with matches yields the first match. -/
theorem monitorLookup_error_behaviour (deploymentId : String) (e : ApiError)
    (items : List K8sObject) (d : K8sObject) (rest : List K8sObject) :
    findDeploymentById (Except.error e) = none ∧
    monitorLookup deploymentId (Except.error e) =
      Except.error ("Deployment with ID " ++ deploymentId ++ " not found") ∧
    findDeploymentById (Except.ok items) = items.head? ∧
    monitorLookup deploymentId (Except.ok []) =
      Except.error ("Deployment with ID " ++ deploymentId ++ " not found") ∧
    monitorLookup deploymentId (Except.ok (d :: rest)) = Except.ok d :=
  ⟨rfl, rfl, rfl, rfl, rfl⟩

/-- C1 witness: a never-converging deployment fails with the timeout error
after a 10-second deadline rather than hanging; a converged one succeeds. -/
theorem waitForDeployment_converges_iff_witness :
    waitForDeployment "myapp" pollsNeverReady 10000 =
      Except.error ("Deployment " ++ "myapp" ++ " did not become ready within " ++
        toString (10000 : Nat) ++ "ms") ∧
    waitForDeployment "myapp" pollsReady 10000 = Except.ok () :=
  ⟨(waitForDeployment_converges_iff "myapp" pollsNeverReady 10000).2.1
      (fun _ _ => rfl),
   (waitForDeployment_converges_iff "myapp" pollsReady 10000).1.mpr
      ⟨0, by decide, rfl⟩⟩
